import Mathlib

/-!
Shallow embedding of `src/backend/rocket/src/main.rs`: a Rocket HTTP server
with six nullary GET handlers, each mounted via `rocket::build().mount(...)`.
Rocket's `mount(base, routes![h])` joins the mount base with the route
attribute path of `h`, so the effective URI of a route is the base followed
by the attribute path (when the base is `/`, the attribute path is used
unchanged).
-/

/-- HTTP methods relevant to dispatch. The source only registers GET routes,
but requests may carry any method. -/
inductive Method where
  | GET
  | POST
  | PUT
  | DELETE
  | HEAD
  | OPTIONS
  | PATCH
deriving DecidableEq, Repr

/-- `rocket::http::Status`, reduced to its numeric code. -/
structure Status where
  code : Nat
deriving DecidableEq, Repr

/-- `rocket::serde::json::Json<α>`: a responder wrapping a value that is
serialized as JSON with Content-Type `application/json`. -/
structure Json (α : Type) where
  val : α
deriving DecidableEq, Repr

/-- The result type of every handler in the source:
`Result<Json<String>, Status>`. -/
abbrev HandlerResult := Except Status (Json String)

/-- `fn hello()` — attribute `#[get("/")]`. -/
def hello : HandlerResult := .ok ⟨"Rocket server is running"⟩

/-- `fn todoHeader()` — attribute `#[get("/todo")]`. -/
def todoHeader : HandlerResult := .ok ⟨"Todo is working"⟩

/-- `fn todoSchool()` — attribute `#[get("/todo/school")]`. -/
def todoSchool : HandlerResult := .ok ⟨"school todo sample"⟩

/-- `fn todoWatch()` — attribute `#[get("/todo/watch")]`. -/
def todoWatch : HandlerResult := .ok ⟨"to watch sample"⟩

/-- `fn todoRead()` — attribute `#[get("/todo/read")]`. -/
def todoRead : HandlerResult := .ok ⟨"to read sample"⟩

/-- `fn todoMake()` — attribute `#[get("/todo/make")]`. -/
def todoMake : HandlerResult := .ok ⟨"to make sample"⟩

/-- A registered route: method, effective URI, and the handler computation.
Handlers in the source take no arguments, so the handler is a constant. -/
structure Route where
  method : Method
  uri : String
  handler : HandlerResult

/-- Rocket's joining of a mount base with a route attribute path: the base
(written without a trailing slash, except the root base `/`) is prefixed to
the attribute path; the root base leaves the attribute path unchanged. -/
def mountPath (base path : String) : String :=
  if base = "/" then path else base ++ path

/-- `Rocket::mount(base, routes)`: appends the given routes, with their
attribute paths joined to `base`, to the route table built so far. -/
def mount (table : List Route) (base : String) (rs : List Route) : List Route :=
  table ++ rs.map (fun r => { r with uri := mountPath base r.uri })

/-- `fn rocket()` — the `#[launch]` builder chain of the source, producing
the route table registered at launch. -/
def rocket : List Route :=
  mount (mount (mount (mount (mount (mount []
    "/" [⟨Method.GET, "/", hello⟩])
    "/todo" [⟨Method.GET, "/todo", todoHeader⟩])
    "/todo/school" [⟨Method.GET, "/todo/school", todoSchool⟩])
    "/todo/watch" [⟨Method.GET, "/todo/watch", todoWatch⟩])
    "/todo/read" [⟨Method.GET, "/todo/read", todoRead⟩])
    "/todo/make" [⟨Method.GET, "/todo/make", todoMake⟩]

/-- An incoming HTTP request. Handlers in the source declare no path, query
or body parameters, so only method and path participate in dispatch; query
and body are carried to state independence from them. -/
structure Request where
  method : Method
  path : String
  query : String
  body : String
deriving DecidableEq, Repr

/-- An HTTP response: status code, Content-Type, body bytes. -/
structure Response where
  status : Nat
  contentType : String
  body : String
deriving DecidableEq, Repr

/-- One hexadecimal digit (lowercase), as serde_json prints `\u` escapes. -/
def hexDigit (n : Nat) : Char :=
  if n < 10 then Char.ofNat (48 + n) else Char.ofNat (87 + n)

/-- serde_json's escaping of a single character inside a JSON string. -/
def jsonEscapeChar (c : Char) : String :=
  if c = '"' then "\\\""
  else if c = '\\' then "\\\\"
  else if c = '\n' then "\\n"
  else if c = '\r' then "\\r"
  else if c = '\t' then "\\t"
  else if c = Char.ofNat 8 then "\\b"
  else if c = Char.ofNat 12 then "\\f"
  else if c.toNat < 32 then
    "\\u00" ++ String.mk [hexDigit (c.toNat / 16), hexDigit (c.toNat % 16)]
  else String.singleton c

/-- serde_json serialization of a Rust `String` as a JSON string value:
the escaped characters wrapped in double quotes. -/
def jsonEncodeString (s : String) : String :=
  "\"" ++ String.join (s.data.map jsonEscapeChar) ++ "\""

/-- Rocket's default catcher for an unmatched route: HTTP 404. The body is
framework-internal HTML not present in this repository and not constrained
by the spec, so it is left empty here. -/
def rocketNotFound : Response :=
  { status := 404, contentType := "text/html; charset=utf-8", body := "" }

/-- The response produced by a matched route: an `Ok(Json(s))` handler
yields 200 with the JSON-encoded string and Content-Type
`application/json`; an `Err(status)` handler yields that status. -/
def routeResponse (r : Route) : Response :=
  match r.handler with
  | .ok j =>
      { status := 200, contentType := "application/json",
        body := jsonEncodeString j.val }
  | .error s =>
      { status := s.code, contentType := "text/html; charset=utf-8", body := "" }

/-- Whether a registered route matches a request: same method and the
request path equals the route's effective URI (the source's routes have no
dynamic segments, so matching is exact equality). -/
def routeMatches (r : Route) (req : Request) : Bool :=
  decide (r.method = req.method ∧ r.uri = req.path)

/-- Rocket route-table dispatch: the first route matching the request's
method and path handles it; otherwise the default 404 catcher answers.
Rocket's automatic HEAD fallback sits on top of this matching and is
modelled by `serve` below. -/
def dispatch (table : List Route) (req : Request) : Response :=
  match table.find? (fun r => routeMatches r req) with
  | some r => routeResponse r
  | none => rocketNotFound

/-- Stripping a response body, as Rocket does when it answers a HEAD
request through a GET route: status and headers are kept, the body is
dropped. -/
def stripBody (resp : Response) : Response :=
  { resp with body := "" }

/-- Full Rocket request handling, including the framework's automatic HEAD
support: a route matching the request's own method wins; failing that, a
HEAD request is re-dispatched to a GET route at the same path with the
response body stripped; otherwise the default 404 catcher answers. -/
def serve (table : List Route) (req : Request) : Response :=
  match table.find? (fun r => routeMatches r req) with
  | some r => routeResponse r
  | none =>
      if req.method = Method.HEAD then
        match table.find?
            (fun r => routeMatches r { req with method := Method.GET }) with
        | some r => stripBody (routeResponse r)
        | none => rocketNotFound
      else rocketNotFound

/-- The server's mutable state. The source has no globals and no mutable
state shared across requests, so the state is trivial. -/
def ServerState := Unit

/-- Handling one request: the state is untouched and the response is the
dispatch over the launch route table. -/
def step (s : ServerState) (req : Request) : ServerState × Response :=
  (s, dispatch rocket req)

/-- Serving a sequence of requests, threading the server state. -/
def runServer : ServerState → List Request → List Response
  | _, [] => []
  | s, req :: reqs =>
      let p := step s req
      p.2 :: runServer p.1 reqs

/-- The route table evaluated: the effective URIs are the mount bases
joined with the attribute paths. -/
theorem rocket_eq : rocket =
    [⟨Method.GET, "/", hello⟩,
     ⟨Method.GET, "/todo/todo", todoHeader⟩,
     ⟨Method.GET, "/todo/school/todo/school", todoSchool⟩,
     ⟨Method.GET, "/todo/watch/todo/watch", todoWatch⟩,
     ⟨Method.GET, "/todo/read/todo/read", todoRead⟩,
     ⟨Method.GET, "/todo/make/todo/make", todoMake⟩] := rfl

/-- Claim C2: a GET request with path exactly `/` returns status 200 with
body the JSON-encoded string `"Rocket server is running"` and Content-Type
`application/json`. -/
theorem C2_get_root :
    dispatch rocket ⟨Method.GET, "/", "", ""⟩ =
      ⟨200, "application/json", "\"Rocket server is running\""⟩ := by decide

/-- Claim C1 counterevidence: the spec's route table lists `GET /todo`,
`GET /todo/school`, `GET /todo/watch`, `GET /todo/read`, `GET /todo/make`
as 200 routes, but each mount base doubles the attribute path, so every one
of those requests falls through to the default 404 catcher. -/
theorem C1_spec_route_table_unreachable :
    dispatch rocket ⟨Method.GET, "/todo", "", ""⟩ = rocketNotFound ∧
    dispatch rocket ⟨Method.GET, "/todo/school", "", ""⟩ = rocketNotFound ∧
    dispatch rocket ⟨Method.GET, "/todo/watch", "", ""⟩ = rocketNotFound ∧
    dispatch rocket ⟨Method.GET, "/todo/read", "", ""⟩ = rocketNotFound ∧
    dispatch rocket ⟨Method.GET, "/todo/make", "", ""⟩ = rocketNotFound ∧
    rocketNotFound.status = 404 := by decide

/-- Claim C3: a GET request whose path is none of the effectively
registered route URIs receives the framework-default 404 response. -/
theorem C3_unmatched_404 (req : Request) (_hm : req.method = Method.GET)
    (hp : req.path ∉ rocket.map Route.uri) :
    dispatch rocket req = rocketNotFound := by
  have hnone : rocket.find? (fun r => routeMatches r req) = none := by
    apply List.find?_eq_none.mpr
    intro r hr hmatch
    simp only [routeMatches, decide_eq_true_eq] at hmatch
    exact hp (hmatch.2 ▸ List.mem_map_of_mem Route.uri hr)
  simp [dispatch, hnone]

/-- Witness for C3 at the concrete unregistered path `/nonexistent`. -/
theorem C3_unmatched_404_witness :
    dispatch rocket ⟨Method.GET, "/nonexistent", "", ""⟩ = rocketNotFound :=
  C3_unmatched_404 ⟨Method.GET, "/nonexistent", "", ""⟩ rfl (by decide)

/-- Claim C4: every handler registered in the route table returns the `Ok`
variant of `Result<Json<String>, Status>`; no handler ever produces an
error status. -/
theorem C4_handlers_ok : ∀ r ∈ rocket, r.handler.isOk = true := by decide

/-- Witness for C4 at the concrete route of `hello`. -/
theorem C4_handlers_ok_witness :
    (Route.mk Method.GET "/" hello).handler.isOk = true :=
  C4_handlers_ok ⟨Method.GET, "/", hello⟩
    (by rw [rocket_eq]; exact List.mem_cons_self _ _)

/-- Claim C5: handlers are deterministic and stateless — the response to a
request does not depend on the server state, the state is unchanged across
requests (so two consecutive identical requests get identical responses),
and serving a request sequence is a pointwise map with no carried state. -/
theorem C5_stateless_deterministic :
    (∀ (s t : ServerState) (req : Request), (step s req).2 = (step t req).2) ∧
    (∀ (s : ServerState) (req : Request),
      (step s req).2 = (step (step s req).1 req).2) ∧
    (∀ (s : ServerState) (reqs : List Request),
      runServer s reqs = reqs.map (fun req => dispatch rocket req)) := by
  refine ⟨fun _ _ _ => rfl, fun _ _ => rfl, fun s reqs => ?_⟩
  induction reqs with
  | nil => rfl
  | cons req reqs ih =>
      simp only [runServer, step, List.map_cons]
      exact congrArg _ ih

/-- Claim C6: no handler output depends on anything but method and matched
path — two requests agreeing on method and path receive identical
responses, whatever their query strings or bodies. -/
theorem C6_independent_of_query_and_body (req1 req2 : Request)
    (hm : req1.method = req2.method) (hp : req1.path = req2.path) :
    dispatch rocket req1 = dispatch rocket req2 := by
  unfold dispatch
  simp only [routeMatches, hm, hp]

/-- Witness for C6: two requests to the effective URI of `todoHeader`
differing in query string and body get the same response. -/
theorem C6_independent_witness :
    dispatch rocket ⟨Method.GET, "/todo/todo", "a=1", "body one"⟩ =
    dispatch rocket ⟨Method.GET, "/todo/todo", "b=2", "body two"⟩ :=
  C6_independent_of_query_and_body _ _ rfl rfl

/-- Claim C7: every status-200 response carries Content-Type
`application/json` and a body that is a bare JSON string value: the literal
text wrapped in double quotes. -/
theorem C7_success_is_json_string (req : Request)
    (h : (dispatch rocket req).status = 200) :
    (dispatch rocket req).contentType = "application/json" ∧
    ∃ s, (dispatch rocket req).body = "\"" ++ s ++ "\"" := by
  unfold dispatch at h ⊢
  cases hfind : rocket.find? (fun r => routeMatches r req) with
  | none => rw [hfind] at h; simp [rocketNotFound] at h
  | some r =>
      have hmem := List.mem_of_find?_eq_some hfind
      rw [rocket_eq] at hmem
      simp only [List.mem_cons, List.not_mem_nil, or_false] at hmem
      rcases hmem with h1 | h1 | h1 | h1 | h1 | h1 <;> subst h1
      · exact ⟨by decide, "Rocket server is running", by decide⟩
      · exact ⟨by decide, "Todo is working", by decide⟩
      · exact ⟨by decide, "school todo sample", by decide⟩
      · exact ⟨by decide, "to watch sample", by decide⟩
      · exact ⟨by decide, "to read sample", by decide⟩
      · exact ⟨by decide, "to make sample", by decide⟩

/-- Witness for C7 at the concrete request `GET /`. -/
theorem C7_success_is_json_string_witness :
    (dispatch rocket ⟨Method.GET, "/", "", ""⟩).contentType =
      "application/json" ∧
    ∃ s, (dispatch rocket ⟨Method.GET, "/", "", ""⟩).body =
      "\"" ++ s ++ "\"" :=
  C7_success_is_json_string ⟨Method.GET, "/", "", ""⟩ (by decide)

/-- Claim C8: each handler other than `hello` is mounted at a base equal to
its own attribute path, so its effective URI is the concatenation of the
two; `hello` alone is served at `/`. Each doubled URI does answer 200 with
that handler's body. -/
theorem C8_effective_uris :
    rocket.map Route.uri =
      ["/", "/todo/todo", "/todo/school/todo/school",
       "/todo/watch/todo/watch", "/todo/read/todo/read",
       "/todo/make/todo/make"] ∧
    dispatch rocket ⟨Method.GET, "/todo/todo", "", ""⟩ =
      ⟨200, "application/json", "\"Todo is working\""⟩ ∧
    dispatch rocket ⟨Method.GET, "/todo/school/todo/school", "", ""⟩ =
      ⟨200, "application/json", "\"school todo sample\""⟩ ∧
    dispatch rocket ⟨Method.GET, "/todo/watch/todo/watch", "", ""⟩ =
      ⟨200, "application/json", "\"to watch sample\""⟩ ∧
    dispatch rocket ⟨Method.GET, "/todo/read/todo/read", "", ""⟩ =
      ⟨200, "application/json", "\"to read sample\""⟩ ∧
    dispatch rocket ⟨Method.GET, "/todo/make/todo/make", "", ""⟩ =
      ⟨200, "application/json", "\"to make sample\""⟩ := by decide

/-- Off HEAD requests, full request handling coincides with plain
route-table dispatch: the automatic HEAD fallback is the only layer `serve`
adds. -/
theorem serve_eq_dispatch_of_ne_head (req : Request)
    (h : req.method ≠ Method.HEAD) :
    serve rocket req = dispatch rocket req := by
  unfold serve dispatch
  cases rocket.find? (fun r => routeMatches r req) with
  | some r => rfl
  | none => simp [h]

/-- Claim C9 counterexample: a HEAD request to the registered GET path `/`
is answered by Rocket's automatic HEAD fallback with status 200 and a
stripped body, so a non-GET request can be served by a registered route,
refuting the claim's universal. -/
theorem C9_head_counterexample :
    serve rocket ⟨Method.HEAD, "/", "", ""⟩ = ⟨200, "application/json", ""⟩ ∧
    serve rocket ⟨Method.HEAD, "/", "", ""⟩ ≠ rocketNotFound := by decide

/-- Claim C9 as amended: every registered route has method GET, and a
request whose method is neither GET nor HEAD matches no route and gets the
default 404 response; HEAD is excluded because Rocket serves it through the
matching GET route with the body stripped. -/
theorem C9_get_only_amended :
    (∀ r ∈ rocket, r.method = Method.GET) ∧
    ∀ req : Request, req.method ≠ Method.GET → req.method ≠ Method.HEAD →
      serve rocket req = rocketNotFound := by
  have hall : ∀ r ∈ rocket, r.method = Method.GET := by decide
  refine ⟨hall, fun req hg hh => ?_⟩
  have hnone : rocket.find? (fun r => routeMatches r req) = none := by
    apply List.find?_eq_none.mpr
    intro r hr hmatch
    simp only [routeMatches, decide_eq_true_eq] at hmatch
    exact hg (hmatch.1.symm.trans (hall r hr))
  simp [serve, hnone, hh]

/-- Witness for amended C9 at a concrete POST request to a registered
path. -/
theorem C9_get_only_amended_witness :
    serve rocket ⟨Method.POST, "/", "", ""⟩ = rocketNotFound :=
  C9_get_only_amended.2 ⟨Method.POST, "/", "", ""⟩ (by decide) (by decide)

/-- A list whose image under `f` has no duplicates holds at most one
element mapping to any given key. -/
theorem countP_le_one_of_nodup_map {α β : Type} [DecidableEq β]
    (f : α → β) (k : β) :
    ∀ l : List α, (l.map f).Nodup →
      l.countP (fun x => decide (f x = k)) ≤ 1 := by
  intro l
  induction l with
  | nil => intro _; simp
  | cons a t ih =>
      intro h
      rw [List.map_cons, List.nodup_cons] at h
      obtain ⟨hna, hnd⟩ := h
      by_cases hk : f a = k
      · have hz : t.countP (fun x => decide (f x = k)) = 0 := by
          rw [List.countP_eq_zero]
          intro x hx hxk
          rw [decide_eq_true_eq] at hxk
          have : f a = f x := hk.trans hxk.symm
          exact hna (this ▸ List.mem_map_of_mem f hx)
        rw [List.countP_cons_of_pos _ _ (by simpa using hk), hz]
      · rw [List.countP_cons_of_neg _ _ (by simpa using hk)]
        exact ih hnd

/-- Claim C10: the six effective (method, URI) pairs registered at launch
are pairwise distinct, so at most one registered route matches any
request. -/
theorem C10_routes_unambiguous :
    (rocket.map (fun r => (r.method, r.uri))).Nodup ∧
    ∀ req : Request, rocket.countP (fun r => routeMatches r req) ≤ 1 := by
  have hnd : (rocket.map (fun r => (r.method, r.uri))).Nodup := by decide
  refine ⟨hnd, fun req => ?_⟩
  have h := countP_le_one_of_nodup_map (fun r : Route => (r.method, r.uri))
    (req.method, req.path) rocket hnd
  have hfun : (fun r : Route => routeMatches r req)
      = fun r : Route =>
          decide ((r.method, r.uri) = (req.method, req.path)) := by
    funext r
    simp [routeMatches, decide_eq_decide, Prod.ext_iff]
  rw [hfun]
  exact h
